import Mathlib

/-!
Shallow embedding of the daylight-flight application (src/src/App.jsx) and
proofs about it.  JS strings are modelled as lists of characters, JS numbers
appearing in the airport dataset as rational numbers with NaN encoded by
Option (none = NaN), and the geometric code over the real numbers.
-/

/-! ## Airport dataset parsing (App.jsx lines 24-50)

The fetch handler splits the downloaded text on newlines, splits each line on
commas, strips double quotes from each field, and inserts a record into a JS
object keyed by the IATA code whenever the line has at least 8 fields and the
code is nonempty, different from the dataset null marker backslash-N, and
exactly 3 characters long.  Latitude and longitude go through parseFloat with
no further validation. -/

/-- Model of the JS string split on a single-character separator, as used by
line.split(',') and data.split('\n'). -/
def splitOnChar (sep : Char) : List Char → List (List Char)
  | [] => [[]]
  | c :: cs =>
    match splitOnChar sep cs with
    | [] => if c = sep then [[], [c]] else [[c]]
    | r :: rs => if c = sep then [] :: r :: rs else (c :: r) :: rs

/-- Model of s.replace of all double quotes by the empty string. -/
def stripQuotes (cs : List Char) : List Char := cs.filter (fun c => c ≠ '"')

/-- Value of a list of decimal digit characters, most significant first. -/
def digitsToNat (ds : List Char) : ℕ := ds.foldl (fun n c => 10 * n + (c.toNat - 48)) 0

/-- Model of the JS builtin parseFloat restricted to decimal literals with an
optional sign, fractional part and exponent (none encodes NaN).  The airport
dataset only contains such literals. -/
def parseFloat (s : List Char) : Option ℚ :=
  let cs := s.dropWhile (fun c => c == ' ' || c == '\t' || c == '\n' || c == '\r')
  let signAndRest : ℚ × List Char :=
    match cs with
    | '-' :: rest => (-1, rest)
    | '+' :: rest => (1, rest)
    | _ => (1, cs)
  let sign := signAndRest.1
  let cs1 := signAndRest.2
  let intDigits := cs1.takeWhile Char.isDigit
  let cs2 := cs1.dropWhile Char.isDigit
  let fracAndRest : List Char × List Char :=
    match cs2 with
    | '.' :: rest => (rest.takeWhile Char.isDigit, rest.dropWhile Char.isDigit)
    | _ => ([], cs2)
  let fracDigits := fracAndRest.1
  let cs3 := fracAndRest.2
  if intDigits.isEmpty && fracDigits.isEmpty then none
  else
    let mantissa : ℚ :=
      sign * ((digitsToNat intDigits : ℚ) + (digitsToNat fracDigits : ℚ) / 10 ^ fracDigits.length)
    let expVal : ℤ :=
      match cs3 with
      | [] => 0
      | e :: rest =>
        if e == 'e' || e == 'E' then
          let esignAndRest : ℤ × List Char :=
            match rest with
            | '-' :: r => (-1, r)
            | '+' :: r => (1, r)
            | _ => (1, rest)
          let eDigits := esignAndRest.2.takeWhile Char.isDigit
          if eDigits.isEmpty then 0 else esignAndRest.1 * (digitsToNat eDigits : ℤ)
        else 0
    some (mantissa * (10 : ℚ) ^ expVal)

/-- An airport record as stored in the lookup table: name, city, and the two
parseFloat results (none encodes NaN). -/
structure Airport where
  name : List Char
  city : List Char
  lat : Option ℚ
  lon : Option ℚ
deriving DecidableEq, Repr

/-- The JS object used as the lookup table, modelled as a function. -/
def AirportMap : Type := List Char → Option Airport

/-- The empty lookup table. -/
def emptyAirportMap : AirportMap := fun _ => none

/-- The comma-split, quote-stripped fields of one dataset line. -/
def rowParts (line : List Char) : List (List Char) :=
  (splitOnChar ',' line).map stripQuotes

/-- The IATA field (index 4) of a dataset line. -/
def rowIata (line : List Char) : List Char := (rowParts line).getD 4 []

/-- The record a dataset line would contribute: fields 1, 2 and the
parseFloat of fields 6 and 7. -/
def rowRecord (line : List Char) : Airport :=
  ⟨(rowParts line).getD 1 [], (rowParts line).getD 2 [],
   parseFloat ((rowParts line).getD 6 []), parseFloat ((rowParts line).getD 7 [])⟩

/-- The guard under which the forEach body inserts a record: at least 8 fields,
and an IATA code that is truthy (nonempty), not the dataset null marker, and
exactly 3 characters long. -/
def rowKept (line : List Char) : Prop :=
  8 ≤ (rowParts line).length ∧
    rowIata line ≠ [] ∧ rowIata line ≠ ['\\', 'N'] ∧ (rowIata line).length = 3

instance (line : List Char) : Decidable (rowKept line) := by
  unfold rowKept; infer_instance

/-- The body of lines.forEach: processes one line of the dataset into the
accumulating lookup table (App.jsx lines 31-45). -/
def processLine (airportMap : AirportMap) (line : List Char) : AirportMap :=
  if 8 ≤ (rowParts line).length then
    if rowIata line ≠ [] ∧ rowIata line ≠ ['\\', 'N'] ∧ (rowIata line).length = 3 then
      fun k => if k = rowIata line then some (rowRecord line) else airportMap k
    else airportMap
  else airportMap

/-- The whole .then handler acting on the already-split lines. -/
def parseLines (ls : List (List Char)) : AirportMap :=
  ls.foldl processLine emptyAirportMap

/-- The whole .then handler: split the downloaded text on newlines and fold
every line into the table. -/
def parseAirports (data : List Char) : AirportMap :=
  parseLines (splitOnChar '\n' data)

/-! ## calculateFlight (App.jsx lines 355-380) -/

/-- The calculateFlight click handler as a pure state transformer: given the
airports state (none before the fetch completes), the two entered codes and
the current flightPath state, it returns the new flightPath state.  Every
early return leaves the state unchanged. -/
def calculateFlight (airports : Option AirportMap) (departureCode arrivalCode : List Char)
    (flightPath : Option (Airport × Airport)) : Option (Airport × Airport) :=
  match airports with
  | none => flightPath
  | some m =>
    match m departureCode with
    | none => flightPath
    | some departure =>
      match m arrivalCode with
      | none => flightPath
      | some arrival => some (departure, arrival)

/-! ### Basic parser lemmas -/

lemma processLine_of_not_kept (m : AirportMap) (line : List Char)
    (h : ¬ rowKept line) : processLine m line = m := by
  unfold processLine
  by_cases h8 : 8 ≤ (rowParts line).length
  · rw [if_pos h8]
    by_cases hg : rowIata line ≠ [] ∧ rowIata line ≠ ['\\', 'N'] ∧ (rowIata line).length = 3
    · exact absurd ⟨h8, hg.1, hg.2.1, hg.2.2⟩ h
    · rw [if_neg hg]
  · rw [if_neg h8]

lemma processLine_of_kept (m : AirportMap) (line : List Char)
    (h : rowKept line) :
    processLine m line =
      fun k => if k = rowIata line then some (rowRecord line) else m k := by
  obtain ⟨h8, h1, h2, h3⟩ := h
  unfold processLine
  rw [if_pos h8, if_pos ⟨h1, h2, h3⟩]

lemma parseLines_append (l₁ l₂ : List (List Char)) :
    parseLines (l₁ ++ l₂) = l₂.foldl processLine (parseLines l₁) := by
  unfold parseLines
  rw [List.foldl_append]

/-- Claim C7 counterexample: a dataset row with 8 fields whose IATA field is
the non-letter code 123 is nevertheless inserted into the lookup table, so
rows whose code is not exactly 3 letters are not all excluded. -/
theorem airportTable_keeps_nonletter_code :
    ("123".data.all Char.isAlpha) = false ∧
    parseLines ["1,Foo,Bar,Cn,123,IC,10,20".data] "123".data ≠ none := by
  decide

/-- Claim C7 (amended): the parser excludes every row with fewer than 8
comma-separated fields and every row whose quote-stripped IATA field is empty,
the literal backslash-N, or not exactly 3 characters long, without aborting
the parse of the remaining rows (the table is as if the row were absent); a
qualifying row maps its code to its own record regardless of earlier rows
(last-write-wins) and leaves every other key unchanged. -/
theorem airportTable_spec (pre post : List (List Char)) (line : List Char) :
    (¬ rowKept line → parseLines (pre ++ line :: post) = parseLines (pre ++ post)) ∧
    (rowKept line → parseLines (pre ++ [line]) (rowIata line) = some (rowRecord line)) ∧
    (rowKept line → ∀ k, k ≠ rowIata line → parseLines (pre ++ [line]) k = parseLines pre k) := by
  refine ⟨?_, ?_, ?_⟩
  · intro h
    rw [parseLines_append, parseLines_append]
    simp only [List.foldl_cons]
    rw [processLine_of_not_kept _ _ h]
  · intro h
    rw [parseLines_append]
    simp only [List.foldl_cons, List.foldl_nil]
    rw [processLine_of_kept _ _ h]
    simp
  · intro h k hk
    rw [parseLines_append]
    simp only [List.foldl_cons, List.foldl_nil]
    rw [processLine_of_kept _ _ h]
    simp [hk]

/-- Witness for the amended claim C7, at a malformed two-field row and at a
duplicate-code pair of rows. -/
theorem airportTable_spec_witness :
    parseLines ([] ++ "1,Foo".data :: ["2,Goo,Baz,Cn,AAA,IC,3,4".data]) =
      parseLines ([] ++ ["2,Goo,Baz,Cn,AAA,IC,3,4".data]) ∧
    parseLines (["1,Foo,Bar,Cn,AAA,IC,1,2".data] ++ ["2,Goo,Baz,Cn,AAA,IC,3,4".data])
        (rowIata "2,Goo,Baz,Cn,AAA,IC,3,4".data) =
      some (rowRecord "2,Goo,Baz,Cn,AAA,IC,3,4".data) :=
  ⟨(airportTable_spec [] ["2,Goo,Baz,Cn,AAA,IC,3,4".data] "1,Foo".data).1 (by decide),
   (airportTable_spec ["1,Foo,Bar,Cn,AAA,IC,1,2".data] []
      "2,Goo,Baz,Cn,AAA,IC,3,4".data).2.1 (by decide)⟩

/-- Claim C10: a dataset row with a valid 3-character IATA code whose latitude
field does not parse as a number is still inserted into the table, with NaN
(modelled as none) as the stored latitude: coordinate fields are never
validated before insertion. -/
theorem airportTable_nan_coordinate (m : AirportMap) (line : List Char)
    (hkeep : rowKept line)
    (hlat : parseFloat ((rowParts line).getD 6 []) = none) :
    processLine m line (rowIata line) = some (rowRecord line) ∧
    (rowRecord line).lat = none := by
  constructor
  · rw [processLine_of_kept _ _ hkeep]
    simp
  · exact hlat

/-- Witness for claim C10 at a concrete row whose latitude field is abc. -/
theorem airportTable_nan_coordinate_witness :
    processLine emptyAirportMap "1,Foo,Bar,Cn,AAA,IC,abc,20".data
        (rowIata "1,Foo,Bar,Cn,AAA,IC,abc,20".data) =
      some (rowRecord "1,Foo,Bar,Cn,AAA,IC,abc,20".data) ∧
    (rowRecord "1,Foo,Bar,Cn,AAA,IC,abc,20".data).lat = none :=
  airportTable_nan_coordinate emptyAirportMap "1,Foo,Bar,Cn,AAA,IC,abc,20".data
    (by decide) (by decide)

/-- Claim C8: if the airports table has not loaded, or either entered code is
absent from it, calculateFlight leaves the flight-path state unchanged; when
both codes resolve it replaces the state with the resolved pair. -/
theorem calculateFlight_spec (m : AirportMap) (departureCode arrivalCode : List Char)
    (flightPath : Option (Airport × Airport)) :
    (calculateFlight none departureCode arrivalCode flightPath = flightPath) ∧
    (m departureCode = none →
      calculateFlight (some m) departureCode arrivalCode flightPath = flightPath) ∧
    (m arrivalCode = none →
      calculateFlight (some m) departureCode arrivalCode flightPath = flightPath) ∧
    (∀ d a, m departureCode = some d → m arrivalCode = some a →
      calculateFlight (some m) departureCode arrivalCode flightPath = some (d, a)) := by
  refine ⟨rfl, ?_, ?_, ?_⟩
  · intro h
    simp only [calculateFlight, h]
  · intro h
    simp only [calculateFlight, h]
    cases hd : m departureCode <;> rfl
  · intro d a hd ha
    simp only [calculateFlight, hd, ha]

/-- Witness for claim C8: an unknown departure code leaves the state unchanged. -/
theorem calculateFlight_spec_witness :
    calculateFlight (some (parseLines [])) "ZZZ".data "AAA".data none = none :=
  (calculateFlight_spec (parseLines []) "ZZZ".data "AAA".data none).2.1 rfl

/-! ## Three-dimensional vectors (the subset of the THREE.Vector3 API the
program uses), over the real numbers. -/

noncomputable section

open Real

/-- A 3D vector as used through the THREE.Vector3 API. -/
@[ext]
structure Vec3 where
  x : ℝ
  y : ℝ
  z : ℝ

namespace Vec3

/-- THREE.Vector3.dot. -/
def dot (a b : Vec3) : ℝ := a.x * b.x + a.y * b.y + a.z * b.z

/-- THREE.Vector3.lengthSq. -/
def lengthSq (a : Vec3) : ℝ := a.x * a.x + a.y * a.y + a.z * a.z

/-- THREE.Vector3.length. -/
def length (a : Vec3) : ℝ := Real.sqrt a.lengthSq

/-- THREE.Vector3.multiplyScalar. -/
def multiplyScalar (a : Vec3) (s : ℝ) : Vec3 := ⟨a.x * s, a.y * s, a.z * s⟩

/-- THREE.Vector3.divideScalar: multiplies by the reciprocal. -/
def divideScalar (a : Vec3) (s : ℝ) : Vec3 := a.multiplyScalar (1 / s)

/-- THREE.Vector3.normalize: divides by the length, or by 1 when the length
is zero (the JS source divides by length-or-1). -/
def normalize (a : Vec3) : Vec3 := a.divideScalar (if a.length = 0 then 1 else a.length)

/-- THREE.Vector3.negate. -/
def negate (a : Vec3) : Vec3 := ⟨-a.x, -a.y, -a.z⟩

/-- THREE.Vector3.angleTo: the inverse cosine of the clamped normalized dot
product, with a degenerate fallback of half pi when either vector is zero. -/
def angleTo (a b : Vec3) : ℝ :=
  let denominator := Real.sqrt (a.lengthSq * b.lengthSq)
  if denominator = 0 then π / 2
  else Real.arccos (max (-1) (min 1 (a.dot b / denominator)))

end Vec3

/-! ## Geographic projection and sun position (App.jsx) -/

/-- The latLonToVector3 helper of the flight-path effect (App.jsx lines
294-303): colatitude phi, theta shifted by 180 degrees, and the fixed axis
convention of the scene. -/
def latLonToVector3 (lat lon radius : ℝ) : Vec3 :=
  let phi := (90 - lat) * (π / 180)
  let theta := (lon + 180) * (π / 180)
  ⟨-radius * Real.sin phi * Real.cos theta,
   radius * Real.cos phi,
   radius * Real.sin phi * Real.sin theta⟩

/-- positionDotAtLocation (App.jsx lines 116-124): the location dot position,
same formula with radius 2. -/
def positionDotAtLocation (lat lon : ℝ) : Vec3 :=
  let phi := (90 - lat) * (π / 180)
  let theta := (lon + 180) * (π / 180)
  ⟨-2 * Real.sin phi * Real.cos theta,
   2 * Real.cos phi,
   2 * Real.sin phi * Real.sin theta⟩

/-- The sun direction computed in updateSunPosition (App.jsx lines 224-231):
same formula on the unit sphere. -/
def sunDirection (subLat subLon : ℝ) : Vec3 :=
  let phi := (90 - subLat) * (π / 180)
  let theta := (subLon + 180) * (π / 180)
  ⟨-(Real.sin phi) * Real.cos theta,
   Real.cos phi,
   Real.sin phi * Real.sin theta⟩

/-- The subsolar longitude computed in updateSunPosition (App.jsx lines
214-217): hours elapsed since the solar noon provided by the ephemeris
library, times 15 degrees per hour.  Times are in milliseconds. -/
def subsolarLongitude (t solarNoon : ℝ) : ℝ :=
  ((t - solarNoon) / (1000 * 60 * 60)) * 15

/-- The day-of-year computed in updateSunPosition (App.jsx line 220): the
floor of the millisecond distance to new Date(year, 0, 0) — one day before
the start of the year, so January 1st is day 1 — divided by 86400000.
startOfYear is the millisecond timestamp of January 1st, 00:00. -/
def dayOfYear (t startOfYear : ℝ) : ℤ :=
  ⌊(t - (startOfYear - 86400000)) / 86400000⌋

/-- The subsolar latitude (solar declination) computed in updateSunPosition
(App.jsx line 221). -/
def subsolarLatitude (t startOfYear : ℝ) : ℝ :=
  -23.44 * Real.cos ((2 * π / 365) * ((dayOfYear t startOfYear : ℝ) + 10))

/-- The scene state that updateSunPosition mutates: the directional light
position and the clip plane (normal and constant offset). -/
structure SceneRefs where
  sunLightPos : Vec3
  clipNormal : Vec3
  clipConstant : ℝ

/-- The initial scene setup (App.jsx lines 148-182): the light at 10 times
the sun direction and the night-side clip plane built with constant 0. -/
def initialSceneRefs (t solarNoon startOfYear : ℝ) : SceneRefs :=
  let sunDir := sunDirection (subsolarLatitude t startOfYear) (subsolarLongitude t solarNoon)
  ⟨sunDir.multiplyScalar 10, sunDir.negate, 0⟩

/-- updateSunPosition (App.jsx lines 205-238), run once per animation frame
with the current time: recomputes the subsolar point, moves the light, and
overwrites the clip-plane normal; the plane constant is never touched. -/
def updateSunPosition (t solarNoon startOfYear : ℝ) (s : SceneRefs) : SceneRefs :=
  let sunDir := sunDirection (subsolarLatitude t startOfYear) (subsolarLongitude t solarNoon)
  ⟨sunDir.multiplyScalar 10, sunDir.negate, s.clipConstant⟩

/-! ## The great-circle flight path (App.jsx lines 305-339) -/

/-- One iteration of the slerp loop: sample index i out of 100, the branch on
a zero angle, and the final normalize-and-scale to radius 2.01. -/
def flightPathPoint (start finish : Vec3) (angle : ℝ) (i : ℕ) : Vec3 :=
  let fraction : ℝ := (i : ℝ) / 100
  let point : Vec3 :=
    if angle = 0 then start
    else
      let sinAngle := Real.sin angle
      let a := Real.sin ((1 - fraction) * angle) / sinAngle
      let b := Real.sin (fraction * angle) / sinAngle
      ⟨a * start.x + b * finish.x, a * start.y + b * finish.y, a * start.z + b * finish.z⟩
  point.normalize.multiplyScalar 2.01

/-- The whole flight-path effect: project both endpoints on the unit sphere,
take the angle between them, and emit the 101 interpolated points in order. -/
def flightPathPoints (depLat depLon arrLat arrLon : ℝ) : List Vec3 :=
  let start := latLonToVector3 depLat depLon 1
  let finish := latLonToVector3 arrLat arrLon 1
  let angle := start.angleTo finish
  (List.range 101).map (flightPathPoint start finish angle)

/-- The event the slerp loop must avoid: taking the division branch (angle
nonzero) while sin angle, the divisor, is zero. -/
def slerpDividesByZero (depLat depLon arrLat arrLon : ℝ) : Prop :=
  let angle := (latLonToVector3 depLat depLon 1).angleTo (latLonToVector3 arrLat arrLon 1)
  angle ≠ 0 ∧ Real.sin angle = 0

end

noncomputable section
open Real

lemma latLonToVector3_lengthSq_one (lat lon : ℝ) :
    (latLonToVector3 lat lon 1).lengthSq = 1 := by
  unfold latLonToVector3 Vec3.lengthSq
  simp only
  have h1 := Real.sin_sq_add_cos_sq ((90 - lat) * (π / 180))
  have h2 := Real.sin_sq_add_cos_sq ((lon + 180) * (π / 180))
  nlinarith [h1, h2]

lemma latLonToVector3_scale (lat lon r : ℝ) :
    latLonToVector3 lat lon r = (latLonToVector3 lat lon 1).multiplyScalar r := by
  unfold latLonToVector3 Vec3.multiplyScalar
  ext <;> simp <;> ring

lemma dot_bounds (u v : Vec3) (hu : u.lengthSq = 1) (hv : v.lengthSq = 1) :
    -1 ≤ u.dot v ∧ u.dot v ≤ 1 := by
  unfold Vec3.dot Vec3.lengthSq at *
  constructor <;>
    nlinarith [sq_nonneg (u.x + v.x), sq_nonneg (u.y + v.y), sq_nonneg (u.z + v.z),
      sq_nonneg (u.x - v.x), sq_nonneg (u.y - v.y), sq_nonneg (u.z - v.z)]

lemma angleTo_eq_arccos (u v : Vec3) (hu : u.lengthSq = 1) (hv : v.lengthSq = 1) :
    u.angleTo v = Real.arccos (u.dot v) := by
  unfold Vec3.angleTo
  rw [hu, hv]
  simp only [one_mul, Real.sqrt_one]
  rw [if_neg one_ne_zero, div_one]
  obtain ⟨h1, h2⟩ := dot_bounds u v hu hv
  rw [min_eq_right h2, max_eq_right h1]

lemma dot_eq_one_iff (u v : Vec3) (hu : u.lengthSq = 1) (hv : v.lengthSq = 1) :
    u.dot v = 1 ↔ u = v := by
  constructor
  · intro h
    unfold Vec3.dot Vec3.lengthSq at *
    ext <;>
      nlinarith [sq_nonneg (u.x - v.x), sq_nonneg (u.y - v.y), sq_nonneg (u.z - v.z)]
  · rintro rfl
    exact hu

lemma dot_eq_neg_one_iff (u v : Vec3) (hu : u.lengthSq = 1) (hv : v.lengthSq = 1) :
    u.dot v = -1 ↔ u = v.negate := by
  constructor
  · intro h
    unfold Vec3.dot Vec3.lengthSq at *
    unfold Vec3.negate
    ext <;> simp only <;>
      nlinarith [sq_nonneg (u.x + v.x), sq_nonneg (u.y + v.y), sq_nonneg (u.z + v.z)]
  · rintro rfl
    unfold Vec3.dot Vec3.lengthSq Vec3.negate at *
    simp only at *
    linear_combination -hv

lemma normalize_of_lengthSq_one (v : Vec3) (h : v.lengthSq = 1) : v.normalize = v := by
  unfold Vec3.normalize Vec3.divideScalar Vec3.length
  rw [h, Real.sqrt_one, if_neg one_ne_zero]
  unfold Vec3.multiplyScalar
  ext <;> simp

lemma length_multiplyScalar_of_lengthSq_one (v : Vec3) (h : v.lengthSq = 1) (s : ℝ)
    (hs : 0 ≤ s) : (v.multiplyScalar s).length = s := by
  unfold Vec3.length Vec3.multiplyScalar Vec3.lengthSq at *
  simp only
  have hsq : v.x * s * (v.x * s) + v.y * s * (v.y * s) + v.z * s * (v.z * s) = s ^ 2 := by
    linear_combination (s ^ 2) * h
  rw [hsq]
  exact Real.sqrt_sq hs

lemma slerp_sq_identity (θ f : ℝ) :
    Real.sin ((1 - f) * θ) ^ 2 + Real.sin (f * θ) ^ 2 +
      2 * Real.sin ((1 - f) * θ) * Real.sin (f * θ) * Real.cos θ = Real.sin θ ^ 2 := by
  have h : (1 - f) * θ = θ - f * θ := by ring
  rw [h, Real.sin_sub]
  have h1 := Real.sin_sq_add_cos_sq (f * θ)
  have h2 := Real.sin_sq_add_cos_sq θ
  linear_combination (Real.sin θ ^ 2) * h1 - (Real.sin (f * θ) ^ 2) * h2

lemma slerp_lengthSq_one (u v : Vec3) (hu : u.lengthSq = 1) (hv : v.lengthSq = 1)
    (θ f : ℝ) (hcos : Real.cos θ = u.dot v) (hsin : Real.sin θ ≠ 0) :
    (Vec3.mk
      (Real.sin ((1 - f) * θ) / Real.sin θ * u.x + Real.sin (f * θ) / Real.sin θ * v.x)
      (Real.sin ((1 - f) * θ) / Real.sin θ * u.y + Real.sin (f * θ) / Real.sin θ * v.y)
      (Real.sin ((1 - f) * θ) / Real.sin θ * u.z + Real.sin (f * θ) / Real.sin θ * v.z)).lengthSq
      = 1 := by
  have key := slerp_sq_identity θ f
  rw [hcos] at key
  unfold Vec3.dot at key
  unfold Vec3.lengthSq at *
  simp only
  field_simp
  linear_combination (Real.sin ((1 - f) * θ) ^ 2) * hu + (Real.sin (f * θ) ^ 2) * hv + key

end

noncomputable section
open Real

lemma angleTo_facts (u v : Vec3) (hu : u.lengthSq = 1) (hv : v.lengthSq = 1) :
    Real.cos (u.angleTo v) = u.dot v ∧ 0 ≤ u.angleTo v ∧ u.angleTo v ≤ π ∧
      (u.angleTo v = 0 → u = v) ∧ (u.angleTo v = π → u = v.negate) := by
  obtain ⟨h1, h2⟩ := dot_bounds u v hu hv
  rw [angleTo_eq_arccos u v hu hv]
  refine ⟨Real.cos_arccos h1 h2, Real.arccos_nonneg _, Real.arccos_le_pi _, ?_, ?_⟩
  · intro h
    have : (1 : ℝ) ≤ u.dot v := Real.arccos_eq_zero.mp h
    exact (dot_eq_one_iff u v hu hv).mp (le_antisymm h2 this)
  · intro h
    have : u.dot v ≤ -1 := Real.arccos_eq_pi.mp h
    exact (dot_eq_neg_one_iff u v hu hv).mp (le_antisymm this h1)

lemma sin_angleTo_pos (u v : Vec3) (hu : u.lengthSq = 1) (hv : v.lengthSq = 1)
    (h0 : u.angleTo v ≠ 0) (hanti : u ≠ v.negate) : 0 < Real.sin (u.angleTo v) := by
  obtain ⟨-, hge, hle, -, hpi⟩ := angleTo_facts u v hu hv
  have hlt : u.angleTo v < π := lt_of_le_of_ne hle (fun h => hanti (hpi h))
  exact Real.sin_pos_of_pos_of_lt_pi (lt_of_le_of_ne hge (Ne.symm h0)) hlt

lemma flightPathPoint_zero_angle (u v : Vec3) (hu : u.lengthSq = 1) (i : ℕ) :
    flightPathPoint u v 0 i = u.multiplyScalar 2.01 := by
  unfold flightPathPoint
  dsimp only
  rw [if_pos rfl, normalize_of_lengthSq_one u hu]

lemma flightPathPoint_length (u v : Vec3) (hu : u.lengthSq = 1) (hv : v.lengthSq = 1)
    (θ : ℝ) (hcos : Real.cos θ = u.dot v) (hsin : Real.sin θ ≠ 0) (hθ : θ ≠ 0) (i : ℕ) :
    (flightPathPoint u v θ i).length = 2.01 := by
  unfold flightPathPoint
  dsimp only
  rw [if_neg hθ]
  have hsq := slerp_lengthSq_one u v hu hv θ ((i : ℝ) / 100) hcos hsin
  rw [normalize_of_lengthSq_one _ hsq]
  exact length_multiplyScalar_of_lengthSq_one _ hsq 2.01 (by norm_num)

lemma flightPathPoint_first (u v : Vec3) (hu : u.lengthSq = 1)
    (θ : ℝ) (hsin : Real.sin θ ≠ 0) (hθ : θ ≠ 0) :
    flightPathPoint u v θ 0 = u.multiplyScalar 2.01 := by
  unfold flightPathPoint
  dsimp only
  rw [if_neg hθ]
  have h1 : ((0 : ℕ) : ℝ) / 100 = 0 := by norm_num
  rw [h1]
  have hmk : Vec3.mk
      (Real.sin ((1 - 0) * θ) / Real.sin θ * u.x + Real.sin (0 * θ) / Real.sin θ * v.x)
      (Real.sin ((1 - 0) * θ) / Real.sin θ * u.y + Real.sin (0 * θ) / Real.sin θ * v.y)
      (Real.sin ((1 - 0) * θ) / Real.sin θ * u.z + Real.sin (0 * θ) / Real.sin θ * v.z) = u := by
    have ha : (1 - (0 : ℝ)) * θ = θ := by ring
    have hb : (0 : ℝ) * θ = 0 := by ring
    rw [ha, hb, Real.sin_zero, zero_div, div_self hsin]
    ext <;> simp
  rw [hmk, normalize_of_lengthSq_one u hu]

lemma flightPathPoint_last (u v : Vec3) (hv : v.lengthSq = 1)
    (θ : ℝ) (hsin : Real.sin θ ≠ 0) (hθ : θ ≠ 0) :
    flightPathPoint u v θ 100 = v.multiplyScalar 2.01 := by
  unfold flightPathPoint
  dsimp only
  rw [if_neg hθ]
  have h1 : ((100 : ℕ) : ℝ) / 100 = 1 := by norm_num
  rw [h1]
  have hmk : Vec3.mk
      (Real.sin ((1 - 1) * θ) / Real.sin θ * u.x + Real.sin (1 * θ) / Real.sin θ * v.x)
      (Real.sin ((1 - 1) * θ) / Real.sin θ * u.y + Real.sin (1 * θ) / Real.sin θ * v.y)
      (Real.sin ((1 - 1) * θ) / Real.sin θ * u.z + Real.sin (1 * θ) / Real.sin θ * v.z) = v := by
    have ha : (1 - (1 : ℝ)) * θ = 0 := by ring
    have hb : (1 : ℝ) * θ = θ := by ring
    rw [ha, hb, Real.sin_zero, zero_div, div_self hsin]
    ext <;> simp
  rw [hmk, normalize_of_lengthSq_one v hv]

end

noncomputable section
open Real

lemma head?_map_range (f : ℕ → Vec3) : ((List.range 101).map f).head? = some (f 0) := by
  rw [show (101 : ℕ) = 100 + 1 from rfl, List.range_succ_eq_map]
  simp

lemma getLast?_map_range (f : ℕ → Vec3) : ((List.range 101).map f).getLast? = some (f 100) := by
  rw [show (101 : ℕ) = 100 + 1 from rfl, List.range_succ, List.map_append]
  simp

lemma latLon_proj_0_0 : latLonToVector3 0 0 1 = ⟨1, 0, 0⟩ := by
  unfold latLonToVector3
  dsimp only
  have hphi : (90 - (0 : ℝ)) * (π / 180) = π / 2 := by ring
  have hth : ((0 : ℝ) + 180) * (π / 180) = π := by ring
  rw [hphi, hth]
  ext <;> simp

lemma latLon_proj_0_180 : latLonToVector3 0 180 1 = ⟨-1, 0, 0⟩ := by
  unfold latLonToVector3
  dsimp only
  have hphi : (90 - (0 : ℝ)) * (π / 180) = π / 2 := by ring
  have hth : ((180 : ℝ) + 180) * (π / 180) = 2 * π := by ring
  rw [hphi, hth]
  ext <;> simp [Real.sin_two_pi, Real.cos_two_pi]

lemma latLon_proj_0_90 : latLonToVector3 0 90 1 = ⟨0, 0, -1⟩ := by
  unfold latLonToVector3
  dsimp only
  have hphi : (90 - (0 : ℝ)) * (π / 180) = π / 2 := by ring
  have hth : ((90 : ℝ) + 180) * (π / 180) = π + π / 2 := by ring
  rw [hphi, hth]
  ext <;> simp [Real.sin_add, Real.cos_add]

lemma not_antipodal_0_0_0_90 :
    latLonToVector3 0 0 1 ≠ (latLonToVector3 0 90 1).negate := by
  rw [latLon_proj_0_0, latLon_proj_0_90]
  unfold Vec3.negate
  intro h
  have hx := congrArg Vec3.x h
  simp at hx

end

noncomputable section
open Real

/-- Claim C1: for every pair of distinct, non-antipodal departure and arrival
points, the slerp loop produces an ordered sequence of exactly 101 points,
each lying on the sphere of radius 2.01, whose first point is the projected
departure and whose last point is the projected arrival at that radius
(exactly, in the real-number model). -/
theorem flightPath_spec (depLat depLon arrLat arrLon : ℝ)
    (hne : (depLat, depLon) ≠ (arrLat, arrLon))
    (hanti : latLonToVector3 depLat depLon 1 ≠ (latLonToVector3 arrLat arrLon 1).negate) :
    (flightPathPoints depLat depLon arrLat arrLon).length = 101 ∧
    (∀ p ∈ flightPathPoints depLat depLon arrLat arrLon, p.length = 2.01) ∧
    (flightPathPoints depLat depLon arrLat arrLon).head? =
      some (latLonToVector3 depLat depLon 2.01) ∧
    (flightPathPoints depLat depLon arrLat arrLon).getLast? =
      some (latLonToVector3 arrLat arrLon 2.01) := by
  have hu := latLonToVector3_lengthSq_one depLat depLon
  have hv := latLonToVector3_lengthSq_one arrLat arrLon
  obtain ⟨hcos, hge, hle, h0, hpi⟩ :=
    angleTo_facts (latLonToVector3 depLat depLon 1) (latLonToVector3 arrLat arrLon 1) hu hv
  have hfp : flightPathPoints depLat depLon arrLat arrLon =
      (List.range 101).map
        (flightPathPoint (latLonToVector3 depLat depLon 1) (latLonToVector3 arrLat arrLon 1)
          ((latLonToVector3 depLat depLon 1).angleTo (latLonToVector3 arrLat arrLon 1))) := rfl
  by_cases hθ :
      (latLonToVector3 depLat depLon 1).angleTo (latLonToVector3 arrLat arrLon 1) = 0
  · have huv := h0 hθ
    refine ⟨?_, ?_, ?_, ?_⟩
    · rw [hfp]
      simp
    · intro p hp
      rw [hfp] at hp
      obtain ⟨i, -, rfl⟩ := List.mem_map.mp hp
      rw [hθ, flightPathPoint_zero_angle _ _ hu]
      exact length_multiplyScalar_of_lengthSq_one _ hu 2.01 (by norm_num)
    · rw [hfp, head?_map_range, hθ, flightPathPoint_zero_angle _ _ hu,
        latLonToVector3_scale depLat depLon 2.01]
    · rw [hfp, getLast?_map_range, hθ, flightPathPoint_zero_angle _ _ hu,
        latLonToVector3_scale arrLat arrLon 2.01, huv]
  · have hsin := ne_of_gt (sin_angleTo_pos _ _ hu hv hθ hanti)
    refine ⟨?_, ?_, ?_, ?_⟩
    · rw [hfp]
      simp
    · intro p hp
      rw [hfp] at hp
      obtain ⟨i, -, rfl⟩ := List.mem_map.mp hp
      exact flightPathPoint_length _ _ hu hv _ hcos hsin hθ i
    · rw [hfp, head?_map_range, flightPathPoint_first _ _ hu _ hsin hθ,
        latLonToVector3_scale depLat depLon 2.01]
    · rw [hfp, getLast?_map_range, flightPathPoint_last _ _ hv _ hsin hθ,
        latLonToVector3_scale arrLat arrLon 2.01]

/-- Witness for claim C1 at the distinct, non-antipodal pair (0,0) and (0,90). -/
theorem flightPath_spec_witness :
    ((0 : ℝ), (0 : ℝ)) ≠ ((0 : ℝ), (90 : ℝ)) ∧
    latLonToVector3 0 0 1 ≠ (latLonToVector3 0 90 1).negate ∧
    (flightPathPoints 0 0 0 90).length = 101 ∧
    (flightPathPoints 0 0 0 90).head? = some (latLonToVector3 0 0 2.01) := by
  have hne : ((0 : ℝ), (0 : ℝ)) ≠ ((0 : ℝ), (90 : ℝ)) := by
    intro h
    have h2 := congrArg Prod.snd h
    norm_num at h2
  obtain ⟨h1, -, h3, -⟩ := flightPath_spec 0 0 0 90 hne not_antipodal_0_0_0_90
  exact ⟨hne, not_antipodal_0_0_0_90, h1, h3⟩

/-- Claim C2 counterexample: at the antipodal pair (0,0), (0,180) the angle
between the projected unit vectors is pi, which is nonzero, so the code takes
the division branch, and sin pi — the divisor — is zero: in the real-number
model of the code the interpolator does divide by zero there. -/
theorem slerp_divides_by_zero_at_antipodes : slerpDividesByZero 0 0 0 180 := by
  unfold slerpDividesByZero
  dsimp only
  rw [latLon_proj_0_0, latLon_proj_0_180]
  have hu : (Vec3.mk 1 0 0).lengthSq = 1 := by
    unfold Vec3.lengthSq
    norm_num
  have hv : (Vec3.mk (-1) 0 0).lengthSq = 1 := by
    unfold Vec3.lengthSq
    norm_num
  rw [angleTo_eq_arccos _ _ hu hv]
  have hdot : (Vec3.mk 1 0 0).dot (Vec3.mk (-1) 0 0) = -1 := by
    unfold Vec3.dot
    norm_num
  rw [hdot, Real.arccos_neg_one]
  exact ⟨Real.pi_ne_zero, Real.sin_pi⟩

/-- Claim C2 (amended): for every pair of non-antipodal input points the
interpolator never divides by zero — the division by sin angle happens only
in the branch where the angle is nonzero, and there the divisor is nonzero —
and when the angle is zero (coincident projections) every one of the 101
output points equals the scaled start point. -/
theorem slerp_no_division_by_zero (depLat depLon arrLat arrLon : ℝ)
    (hanti : latLonToVector3 depLat depLon 1 ≠ (latLonToVector3 arrLat arrLon 1).negate) :
    ¬ slerpDividesByZero depLat depLon arrLat arrLon ∧
    ((latLonToVector3 depLat depLon 1).angleTo (latLonToVector3 arrLat arrLon 1) = 0 →
      ∀ p ∈ flightPathPoints depLat depLon arrLat arrLon,
        p = (latLonToVector3 depLat depLon 1).multiplyScalar 2.01) := by
  have hu := latLonToVector3_lengthSq_one depLat depLon
  have hv := latLonToVector3_lengthSq_one arrLat arrLon
  have hfp : flightPathPoints depLat depLon arrLat arrLon =
      (List.range 101).map
        (flightPathPoint (latLonToVector3 depLat depLon 1) (latLonToVector3 arrLat arrLon 1)
          ((latLonToVector3 depLat depLon 1).angleTo (latLonToVector3 arrLat arrLon 1))) := rfl
  constructor
  · intro h
    unfold slerpDividesByZero at h
    dsimp only at h
    obtain ⟨hne0, hsin0⟩ := h
    exact absurd hsin0 (ne_of_gt (sin_angleTo_pos _ _ hu hv hne0 hanti))
  · intro hθ p hp
    rw [hfp] at hp
    obtain ⟨i, -, rfl⟩ := List.mem_map.mp hp
    rw [hθ, flightPathPoint_zero_angle _ _ hu]

/-- Witness for the amended claim C2 at the non-antipodal pair (0,0), (0,90). -/
theorem slerp_no_division_by_zero_witness :
    latLonToVector3 0 0 1 ≠ (latLonToVector3 0 90 1).negate ∧
    ¬ slerpDividesByZero 0 0 0 90 :=
  ⟨not_antipodal_0_0_0_90,
   (slerp_no_division_by_zero 0 0 0 90 not_antipodal_0_0_0_90).1⟩

end

noncomputable section
open Real

lemma negate_lengthSq (v : Vec3) : v.negate.lengthSq = v.lengthSq := by
  unfold Vec3.negate Vec3.lengthSq
  ring

lemma sunDirection_eq_proj (a b : ℝ) : sunDirection a b = latLonToVector3 a b 1 := by
  unfold sunDirection latLonToVector3
  dsimp only
  ext <;> dsimp only <;> ring

/-- Claim C4: the projection returns exactly the documented triple, and the
three occurrences of the formula in the program — the flight-path helper, the
location-dot placement (radius 2) and the sun-direction computation (radius
1) — all compute this same mapping. -/
theorem latLonToVector3_spec (lat lon r : ℝ)
    (hlat : -90 ≤ lat ∧ lat ≤ 90) (hlon : -180 ≤ lon ∧ lon ≤ 180) :
    latLonToVector3 lat lon r =
      ⟨-r * Real.sin ((90 - lat) * (π / 180)) * Real.cos ((lon + 180) * (π / 180)),
       r * Real.cos ((90 - lat) * (π / 180)),
       r * Real.sin ((90 - lat) * (π / 180)) * Real.sin ((lon + 180) * (π / 180))⟩ ∧
    positionDotAtLocation lat lon = latLonToVector3 lat lon 2 ∧
    sunDirection lat lon = latLonToVector3 lat lon 1 := by
  exact ⟨rfl, rfl, sunDirection_eq_proj lat lon⟩

/-- Witness for claim C4 at latitude 0, longitude 0, radius 1. -/
theorem latLonToVector3_spec_witness :
    ((-90 : ℝ) ≤ 0 ∧ (0 : ℝ) ≤ 90) ∧ ((-180 : ℝ) ≤ 0 ∧ (0 : ℝ) ≤ 180) ∧
    positionDotAtLocation 0 0 = latLonToVector3 0 0 2 ∧
    sunDirection 0 0 = latLonToVector3 0 0 1 := by
  have h := latLonToVector3_spec 0 0 1 (by norm_num) (by norm_num)
  exact ⟨by norm_num, by norm_num, h.2.1, h.2.2⟩

/-- Claim C9: updateSunPosition, run every animation frame, rebuilds the clip
plane from the current subsolar point: the stored normal is the negated
unit-sphere projection of the subsolar point, that normal is a unit vector,
and the plane constant — 0 when the plane is built at scene setup — is never
modified by the per-frame update. -/
theorem clipPlane_spec (t solarNoon startOfYear : ℝ) (s : SceneRefs) :
    (updateSunPosition t solarNoon startOfYear s).clipNormal =
      (latLonToVector3 (subsolarLatitude t startOfYear) (subsolarLongitude t solarNoon) 1).negate ∧
    ((updateSunPosition t solarNoon startOfYear s).clipNormal).length = 1 ∧
    (updateSunPosition t solarNoon startOfYear s).clipConstant = s.clipConstant ∧
    (initialSceneRefs t solarNoon startOfYear).clipConstant = 0 := by
  have hnorm : (updateSunPosition t solarNoon startOfYear s).clipNormal =
      (latLonToVector3 (subsolarLatitude t startOfYear) (subsolarLongitude t solarNoon) 1).negate := by
    show (sunDirection _ _).negate = _
    rw [sunDirection_eq_proj]
  refine ⟨hnorm, ?_, rfl, rfl⟩
  rw [hnorm]
  unfold Vec3.length
  rw [negate_lengthSq, latLonToVector3_lengthSq_one, Real.sqrt_one]

/-- Claim C6 (code bug): one and two hours after solar noon the code computes
subsolar longitudes of +15 and +30 degrees — the computed subsolar point
moves toward increasing, i.e. eastward, longitudes (in the same east-positive
convention the airport dataset uses) as time advances past solar noon,
whereas the claim, the spec and the physical sun have it move west. -/
theorem subsolarLongitude_moves_east :
    subsolarLongitude 3600000 0 = 15 ∧ subsolarLongitude 7200000 0 = 30 ∧
    subsolarLongitude 3600000 0 < subsolarLongitude 7200000 0 := by
  unfold subsolarLongitude
  norm_num

/-- Claim C3 counterexample: the computed subsolar latitude, as a function of
the timestamp, is not continuous: it jumps at the day boundary at 86400000 ms
for a year whose January 1st, 00:00 falls at 86400000 ms. -/
theorem subsolarLatitude_not_continuous :
    ¬ ContinuousAt (fun u : ℝ => subsolarLatitude u 86400000) 86400000 := by
  have hπ := Real.pi_pos
  have hval₁ : ∀ u : ℝ, 0 ≤ u → u < 86400000 →
      subsolarLatitude u 86400000 = -23.44 * Real.cos ((2 * π / 365) * 10) := by
    intro u h0 h1
    unfold subsolarLatitude dayOfYear
    have harg : (u - ((86400000 : ℝ) - 86400000)) / 86400000 = u / 86400000 := by
      norm_num
    have hfl : ⌊(u - ((86400000 : ℝ) - 86400000)) / 86400000⌋ = 0 := by
      rw [harg, Int.floor_eq_zero_iff]
      refine Set.mem_Ico.mpr ⟨div_nonneg h0 (by norm_num), ?_⟩
      rw [div_lt_one (by norm_num : (0 : ℝ) < 86400000)]
      exact h1
    rw [hfl]
    norm_num
  have hval₂ : subsolarLatitude 86400000 86400000 =
      -23.44 * Real.cos ((2 * π / 365) * 11) := by
    unfold subsolarLatitude dayOfYear
    have harg : ((86400000 : ℝ) - ((86400000 : ℝ) - 86400000)) / 86400000 = 1 := by
      norm_num
    rw [harg, Int.floor_one]
    norm_num
  have hne : -23.44 * Real.cos ((2 * π / 365) * 10) ≠ -23.44 * Real.cos ((2 * π / 365) * 11) := by
    have ha : (2 * π / 365) * 10 ∈ Set.Icc 0 π :=
      Set.mem_Icc.mpr ⟨by linarith, by linarith⟩
    have hb : (2 * π / 365) * 11 ∈ Set.Icc 0 π :=
      Set.mem_Icc.mpr ⟨by linarith, by linarith⟩
    have hmono := Real.strictAntiOn_cos ha hb (by linarith)
    intro heq
    have := mul_left_cancel₀ (by norm_num : (-23.44 : ℝ) ≠ 0) heq
    linarith
  intro hcont
  rw [Metric.continuousAt_iff] at hcont
  obtain ⟨δ, hδ, hd⟩ := hcont
    (dist (-23.44 * Real.cos ((2 * π / 365) * 10)) (-23.44 * Real.cos ((2 * π / 365) * 11)))
    (dist_pos.mpr hne)
  have hmin : 0 < min (δ / 2) 1 := lt_min (by linarith) one_pos
  have hmle : min (δ / 2) 1 ≤ δ / 2 := min_le_left _ _
  have hm1 : min (δ / 2) 1 ≤ 1 := min_le_right _ _
  have hdist : dist ((86400000 : ℝ) - min (δ / 2) 1) 86400000 < δ := by
    rw [Real.dist_eq]
    have harg : (86400000 : ℝ) - min (δ / 2) 1 - 86400000 = -(min (δ / 2) 1) := by ring
    rw [harg, abs_neg, abs_of_pos hmin]
    linarith
  have happ := hd hdist
  rw [hval₁ ((86400000 : ℝ) - min (δ / 2) 1) (by linarith) (by linarith), hval₂] at happ
  exact lt_irrefl _ happ

/-- Claim C3 (amended): the computed subsolar latitude equals
-23.44 cos(2 pi / 365 (dayOfYear + 10)) with dayOfYear the code's floored day
count (January 1st is day 1), always lies in [-23.44, 23.44], and is constant
within each day — as a function of the timestamp it is a step function with a
jump at each day boundary, hence not continuous; the underlying envelope as a
function of a real day parameter is continuous. -/
theorem subsolarLatitude_spec :
    (∀ t startOfYear : ℝ, subsolarLatitude t startOfYear =
      -23.44 * Real.cos ((2 * π / 365) * ((dayOfYear t startOfYear : ℝ) + 10))) ∧
    (∀ t startOfYear : ℝ,
      -23.44 ≤ subsolarLatitude t startOfYear ∧ subsolarLatitude t startOfYear ≤ 23.44) ∧
    (∀ t₁ t₂ startOfYear : ℝ, dayOfYear t₁ startOfYear = dayOfYear t₂ startOfYear →
      subsolarLatitude t₁ startOfYear = subsolarLatitude t₂ startOfYear) ∧
    Continuous (fun d : ℝ => -23.44 * Real.cos ((2 * π / 365) * (d + 10))) := by
  refine ⟨fun t s => rfl, ?_, ?_, ?_⟩
  · intro t s
    unfold subsolarLatitude
    constructor <;>
      nlinarith [Real.neg_one_le_cos ((2 * π / 365) * ((dayOfYear t s : ℝ) + 10)),
        Real.cos_le_one ((2 * π / 365) * ((dayOfYear t s : ℝ) + 10))]
  · intro t₁ t₂ s h
    unfold subsolarLatitude
    rw [h]
  · exact continuous_const.mul
      (Real.continuous_cos.comp (continuous_const.mul (continuous_id.add continuous_const)))

/-- Witness for the amended claim C3: two timestamps in the same day. -/
theorem subsolarLatitude_spec_witness :
    dayOfYear 1000 86400000 = dayOfYear 2000 86400000 ∧
    subsolarLatitude 1000 86400000 = subsolarLatitude 2000 86400000 := by
  have hday : dayOfYear 1000 86400000 = dayOfYear 2000 86400000 := by
    unfold dayOfYear
    have h1 : ((1000 : ℝ) - ((86400000 : ℝ) - 86400000)) / 86400000 = 1000 / 86400000 := by
      norm_num
    have h2 : ((2000 : ℝ) - ((86400000 : ℝ) - 86400000)) / 86400000 = 2000 / 86400000 := by
      norm_num
    rw [h1, h2]
    have f1 : ⌊(1000 : ℝ) / 86400000⌋ = 0 := by
      rw [Int.floor_eq_zero_iff]
      exact Set.mem_Ico.mpr ⟨by positivity, by norm_num⟩
    have f2 : ⌊(2000 : ℝ) / 86400000⌋ = 0 := by
      rw [Int.floor_eq_zero_iff]
      exact Set.mem_Ico.mpr ⟨by positivity, by norm_num⟩
    rw [f1, f2]
  exact ⟨hday, subsolarLatitude_spec.2.2.1 1000 2000 86400000 hday⟩

end

noncomputable section
open Real

/-- Claim C5 counterexample: at the north pole two distinct valid inputs map
to the same point, so the projection is not injective on the valid domain and
hence not a bijection onto the sphere (shown at radius 1). -/
theorem latLonToVector3_not_injective :
    latLonToVector3 90 0 1 = latLonToVector3 90 90 1 ∧
    ¬ ((90 : ℝ), (0 : ℝ)) = ((90 : ℝ), (90 : ℝ)) := by
  constructor
  · unfold latLonToVector3
    dsimp only
    have h : (90 - (90 : ℝ)) * (π / 180) = 0 := by ring
    rw [h]
    ext <;> simp
  · intro h
    have h2 := congrArg Prod.snd h
    norm_num at h2

lemma latLonToVector3_length (lat lon r : ℝ) (hr : 0 ≤ r) :
    (latLonToVector3 lat lon r).length = r := by
  rw [latLonToVector3_scale]
  exact length_multiplyScalar_of_lengthSq_one _ (latLonToVector3_lengthSq_one lat lon) r hr

lemma angle_eq_of_cos_sin_eq (θ₁ θ₂ : ℝ) (ha₁ : 0 < θ₁) (hb₁ : θ₁ ≤ 2 * π)
    (ha₂ : 0 < θ₂) (hb₂ : θ₂ ≤ 2 * π)
    (hcos : Real.cos θ₁ = Real.cos θ₂) (hsin : Real.sin θ₁ = Real.sin θ₂) : θ₁ = θ₂ := by
  have hc : Real.cos (θ₁ - θ₂) = 1 := by
    rw [Real.cos_sub, hcos, hsin]
    linear_combination Real.sin_sq_add_cos_sq θ₂
  have h := (Real.cos_eq_one_iff_of_lt_of_lt (by linarith) (by linarith)).mp hc
  linarith

lemma exists_angle (a b : ℝ) (h : a ^ 2 + b ^ 2 = 1) :
    ∃ θ : ℝ, 0 < θ ∧ θ ≤ 2 * π ∧ Real.cos θ = a ∧ Real.sin θ = b := by
  have hπ := Real.pi_pos
  have ha1 : -1 ≤ a := by nlinarith [sq_nonneg b]
  have ha2 : a ≤ 1 := by nlinarith [sq_nonneg b]
  have hcos := Real.cos_arccos ha1 ha2
  have hsin : Real.sin (Real.arccos a) = |b| := by
    rw [Real.sin_arccos, show (1 : ℝ) - a ^ 2 = b ^ 2 by linarith]
    exact Real.sqrt_sq_eq_abs b
  rcases lt_or_le b 0 with hb | hb
  · have habs : 0 < |b| := abs_pos.mpr (ne_of_lt hb)
    have hpos : 0 < Real.arccos a := by
      rcases eq_or_lt_of_le (Real.arccos_nonneg a) with h0 | h0
      · rw [← h0, Real.sin_zero] at hsin
        linarith
      · exact h0
    refine ⟨2 * π - Real.arccos a, ?_, ?_, ?_, ?_⟩
    · have := Real.arccos_le_pi a
      linarith
    · linarith
    · rw [Real.cos_two_pi_sub]
      exact hcos
    · rw [Real.sin_two_pi_sub, hsin, abs_of_neg hb]
      ring
  · rcases eq_or_lt_of_le (Real.arccos_nonneg a) with h0 | h0
    · refine ⟨2 * π, by linarith, le_refl _, ?_, ?_⟩
      · rw [Real.cos_two_pi, ← hcos, ← h0, Real.cos_zero]
      · rw [Real.sin_two_pi]
        have hb0 : |b| = 0 := by
          rw [← hsin, ← h0, Real.sin_zero]
        rw [abs_eq_zero] at hb0
        rw [hb0]
    · refine ⟨Real.arccos a, h0, ?_, hcos, ?_⟩
      · have := Real.arccos_le_pi a
        linarith
      · rw [hsin, abs_of_nonneg hb]

lemma latLonToVector3_injOn (r : ℝ) (hr : 0 < r) (lat₁ lon₁ lat₂ lon₂ : ℝ)
    (ha₁ : -90 < lat₁) (hb₁ : lat₁ < 90) (hc₁ : -180 < lon₁) (hd₁ : lon₁ ≤ 180)
    (ha₂ : -90 < lat₂) (hb₂ : lat₂ < 90) (hc₂ : -180 < lon₂) (hd₂ : lon₂ ≤ 180)
    (heq : latLonToVector3 lat₁ lon₁ r = latLonToVector3 lat₂ lon₂ r) :
    lat₁ = lat₂ ∧ lon₁ = lon₂ := by
  have hπ := Real.pi_pos
  have hx := congrArg Vec3.x heq
  have hy := congrArg Vec3.y heq
  have hz := congrArg Vec3.z heq
  unfold latLonToVector3 at hx hy hz
  dsimp only at hx hy hz
  have hφ₁pos : 0 < (90 - lat₁) * (π / 180) := by nlinarith
  have hφ₁lt : (90 - lat₁) * (π / 180) < π := by nlinarith
  have hφ₂pos : 0 < (90 - lat₂) * (π / 180) := by nlinarith
  have hφ₂lt : (90 - lat₂) * (π / 180) < π := by nlinarith
  have hcosφ : Real.cos ((90 - lat₁) * (π / 180)) = Real.cos ((90 - lat₂) * (π / 180)) :=
    mul_left_cancel₀ (ne_of_gt hr) hy
  have hφeq : (90 - lat₁) * (π / 180) = (90 - lat₂) * (π / 180) :=
    Real.injOn_cos (Set.mem_Icc.mpr ⟨le_of_lt hφ₁pos, le_of_lt hφ₁lt⟩)
      (Set.mem_Icc.mpr ⟨le_of_lt hφ₂pos, le_of_lt hφ₂lt⟩) hcosφ
  have hlat : lat₁ = lat₂ := by
    have hne : π / 180 ≠ 0 := by positivity
    have := mul_right_cancel₀ hne hφeq
    linarith
  subst hlat
  have hsinφ : 0 < Real.sin ((90 - lat₁) * (π / 180)) :=
    Real.sin_pos_of_pos_of_lt_pi hφ₁pos hφ₁lt
  have hfac : r * Real.sin ((90 - lat₁) * (π / 180)) ≠ 0 :=
    mul_ne_zero (ne_of_gt hr) (ne_of_gt hsinφ)
  have hcosθ : Real.cos ((lon₁ + 180) * (π / 180)) = Real.cos ((lon₂ + 180) * (π / 180)) := by
    have hx2 : r * Real.sin ((90 - lat₁) * (π / 180)) * Real.cos ((lon₁ + 180) * (π / 180)) =
        r * Real.sin ((90 - lat₁) * (π / 180)) * Real.cos ((lon₂ + 180) * (π / 180)) := by
      linear_combination -hx
    exact mul_left_cancel₀ hfac hx2
  have hsinθ : Real.sin ((lon₁ + 180) * (π / 180)) = Real.sin ((lon₂ + 180) * (π / 180)) :=
    mul_left_cancel₀ hfac hz
  have hθ₁pos : 0 < (lon₁ + 180) * (π / 180) := by nlinarith
  have hθ₁le : (lon₁ + 180) * (π / 180) ≤ 2 * π := by nlinarith
  have hθ₂pos : 0 < (lon₂ + 180) * (π / 180) := by nlinarith
  have hθ₂le : (lon₂ + 180) * (π / 180) ≤ 2 * π := by nlinarith
  have hθeq := angle_eq_of_cos_sin_eq _ _ hθ₁pos hθ₁le hθ₂pos hθ₂le hcosθ hsinθ
  have hne : π / 180 ≠ 0 := by positivity
  have := mul_right_cancel₀ hne hθeq
  exact ⟨rfl, by linarith⟩

lemma latLonToVector3_surjOn (r : ℝ) (hr : 0 < r) (v : Vec3) (hv : v.length = r) :
    ∃ lat lon : ℝ, -90 ≤ lat ∧ lat ≤ 90 ∧ -180 ≤ lon ∧ lon ≤ 180 ∧
      latLonToVector3 lat lon r = v := by
  have hπ := Real.pi_pos
  have hr0 : r ≠ 0 := ne_of_gt hr
  have hsq0 : 0 ≤ v.lengthSq := by
    unfold Vec3.lengthSq
    nlinarith [sq_nonneg v.x, sq_nonneg v.y, sq_nonneg v.z]
  have hsq : v.lengthSq = r ^ 2 := by
    have h1 : Real.sqrt v.lengthSq = r := hv
    nlinarith [Real.sq_sqrt hsq0]
  have hy2 : v.y ^ 2 ≤ r ^ 2 := by
    unfold Vec3.lengthSq at hsq
    nlinarith [sq_nonneg v.x, sq_nonneg v.z]
  have hyle : v.y ≤ r := by nlinarith [sq_nonneg (v.y - r)]
  have hyge : -r ≤ v.y := by nlinarith [sq_nonneg (v.y + r)]
  have hc1 : -1 ≤ v.y / r := by
    rw [neg_le, ← neg_div]
    exact (div_le_one hr).mpr (by linarith)
  have hc2 : v.y / r ≤ 1 := (div_le_one hr).mpr hyle
  have hcosφ := Real.cos_arccos hc1 hc2
  have hsinφ0 : 0 ≤ Real.sin (Real.arccos (v.y / r)) :=
    Real.sin_nonneg_of_nonneg_of_le_pi (Real.arccos_nonneg _) (Real.arccos_le_pi _)
  have hsinφsq : Real.sin (Real.arccos (v.y / r)) ^ 2 = 1 - (v.y / r) ^ 2 := by
    rw [Real.sin_arccos, Real.sq_sqrt]
    have hd : (v.y / r) ^ 2 ≤ 1 := by
      rw [div_pow, div_le_one (by positivity)]
      exact hy2
    linarith
  have harcbd : Real.arccos (v.y / r) * (180 / π) ≤ 180 := by
    have h2 := Real.arccos_le_pi (v.y / r)
    have h3 : Real.arccos (v.y / r) * (180 / π) ≤ π * (180 / π) :=
      mul_le_mul_of_nonneg_right h2 (by positivity)
    have h4 : π * (180 / π) = 180 := by field_simp
    linarith
  have harcnn : 0 ≤ Real.arccos (v.y / r) * (180 / π) :=
    mul_nonneg (Real.arccos_nonneg _) (by positivity)
  set lat := 90 - Real.arccos (v.y / r) * (180 / π) with hlat_def
  have hφeq : (90 - lat) * (π / 180) = Real.arccos (v.y / r) := by
    rw [hlat_def]
    field_simp
  have hlat1 : -90 ≤ lat := by
    rw [hlat_def]
    linarith
  have hlat2 : lat ≤ 90 := by
    rw [hlat_def]
    linarith
  have hssq : (r * Real.sin (Real.arccos (v.y / r))) ^ 2 = v.x ^ 2 + v.z ^ 2 := by
    have hexp : (r * Real.sin (Real.arccos (v.y / r))) ^ 2 = r ^ 2 * (1 - (v.y / r) ^ 2) := by
      rw [mul_pow, hsinφsq]
    have hexp2 : r ^ 2 * (1 - (v.y / r) ^ 2) = r ^ 2 - v.y ^ 2 := by
      field_simp
    rw [hexp, hexp2]
    unfold Vec3.lengthSq at hsq
    linear_combination -hsq
  have hsnn : 0 ≤ r * Real.sin (Real.arccos (v.y / r)) := mul_nonneg hr.le hsinφ0
  rcases eq_or_lt_of_le hsnn with hs0 | hspos
  · have hxz : v.x ^ 2 + v.z ^ 2 = 0 := by
      rw [← hssq, ← hs0]
      norm_num
    have hx0 : v.x = 0 := by
      have h1 : v.x ^ 2 = 0 := le_antisymm (by nlinarith [sq_nonneg v.z]) (sq_nonneg v.x)
      exact sq_eq_zero_iff.mp h1
    have hz0 : v.z = 0 := by
      have h1 : v.z ^ 2 = 0 := le_antisymm (by nlinarith [sq_nonneg v.x]) (sq_nonneg v.z)
      exact sq_eq_zero_iff.mp h1
    refine ⟨lat, 0, hlat1, hlat2, by norm_num, by norm_num, ?_⟩
    unfold latLonToVector3
    dsimp only
    rw [hφeq]
    ext
    · dsimp only
      rw [hx0]
      linear_combination (-Real.cos (((0 : ℝ) + 180) * (π / 180))) * hs0.symm
    · dsimp only
      rw [hcosφ]
      field_simp
    · dsimp only
      rw [hz0]
      linear_combination (Real.sin (((0 : ℝ) + 180) * (π / 180))) * hs0.symm
  · have hsne : r * Real.sin (Real.arccos (v.y / r)) ≠ 0 := ne_of_gt hspos
    have hab : (-v.x / (r * Real.sin (Real.arccos (v.y / r)))) ^ 2 +
        (v.z / (r * Real.sin (Real.arccos (v.y / r)))) ^ 2 = 1 := by
      field_simp
      linear_combination -hssq
    obtain ⟨θ, hθpos, hθle, hθcos, hθsin⟩ := exists_angle _ _ hab
    have hlonle : θ * (180 / π) - 180 ≤ 180 := by
      have h3 : θ * (180 / π) ≤ (2 * π) * (180 / π) :=
        mul_le_mul_of_nonneg_right hθle (by positivity)
      have h4 : (2 * π) * (180 / π) = 360 := by field_simp; ring
      linarith
    have hlonge : -180 ≤ θ * (180 / π) - 180 := by
      have h3 : 0 ≤ θ * (180 / π) := mul_nonneg hθpos.le (by positivity)
      linarith
    have hθeq : ((θ * (180 / π) - 180) + 180) * (π / 180) = θ := by
      field_simp
      ring
    refine ⟨lat, θ * (180 / π) - 180, hlat1, hlat2, hlonge, hlonle, ?_⟩
    unfold latLonToVector3
    dsimp only
    rw [hφeq, hθeq, hθcos, hθsin]
    ext
    · dsimp only
      field_simp
    · dsimp only
      rw [hcosφ]
      field_simp
    · dsimp only
      field_simp

/-- Claim C5 (amended): for nonnegative r the projection maps every (lat,
lon) pair onto the sphere of radius r; for positive r it is surjective onto
that sphere from the valid domain, and injective once the poles and the seam
are removed (lat strictly between -90 and 90, lon in (-180, 180]); it is not
injective — hence not a bijection — on the full closed domain, where all
longitudes collide at the poles. -/
theorem latLonToVector3_sphere_spec :
    (∀ lat lon r : ℝ, 0 ≤ r → (latLonToVector3 lat lon r).length = r) ∧
    (∀ r : ℝ, 0 < r → ∀ lat₁ lon₁ lat₂ lon₂ : ℝ,
      -90 < lat₁ → lat₁ < 90 → -180 < lon₁ → lon₁ ≤ 180 →
      -90 < lat₂ → lat₂ < 90 → -180 < lon₂ → lon₂ ≤ 180 →
      latLonToVector3 lat₁ lon₁ r = latLonToVector3 lat₂ lon₂ r →
      lat₁ = lat₂ ∧ lon₁ = lon₂) ∧
    (∀ r : ℝ, 0 < r → ∀ v : Vec3, v.length = r →
      ∃ lat lon : ℝ, -90 ≤ lat ∧ lat ≤ 90 ∧ -180 ≤ lon ∧ lon ≤ 180 ∧
        latLonToVector3 lat lon r = v) :=
  ⟨fun lat lon r hr => latLonToVector3_length lat lon r hr,
   fun r hr lat₁ lon₁ lat₂ lon₂ ha₁ hb₁ hc₁ hd₁ ha₂ hb₂ hc₂ hd₂ heq =>
     latLonToVector3_injOn r hr lat₁ lon₁ lat₂ lon₂ ha₁ hb₁ hc₁ hd₁ ha₂ hb₂ hc₂ hd₂ heq,
   fun r hr v hv => latLonToVector3_surjOn r hr v hv⟩

/-- Witness for the amended claim C5 at latitude 0, longitude 0, radius 1. -/
theorem latLonToVector3_sphere_spec_witness :
    (0 : ℝ) ≤ 1 ∧ (latLonToVector3 0 0 1).length = 1 :=
  ⟨by norm_num, latLonToVector3_sphere_spec.1 0 0 1 (by norm_num)⟩

end
